import Mathlib

/-!
Shallow embedding of the product-listing lifecycle logic of the olxbackend
repository (`src/routes/products.routes.js`), together with the relevant
row-level-security policy of the products table
(`supabase/migrations` schema, policy `Users can update own products`).

Modelling choices:
* user ids, product ids and category ids are `Nat`; timestamps are `Nat`;
  prices are `Int` (validated non-negative);
* `status` and `condition` are the literal strings the JS code and the SQL
  CHECK constraints use;
* the database is a `List Product`; the supabase query builder calls
  (`.eq`, `.update`, `.delete`, `.range`, `count: 'exact'`) are embedded as
  list filtering, mapping and slicing;
* the `updated_at` trigger column is elided (no claim concerns it);
* store-level failures of the view-count increment are modelled by a
  Boolean `incOk` parameter, since the handler ignores the result of that
  update call.
-/

namespace Olx

/-- A row of the `products` table (columns relevant to the route logic;
`featured` and `updated_at` are elided). `sold_at` is nullable. -/
structure Product where
  id : Nat
  user_id : Nat
  category_id : Nat
  title : String
  description : String
  price : Int
  condition : String
  location : String
  status : String
  views : Nat
  sold_at : Option Nat
  created_at : Nat
deriving Repr, DecidableEq

/-- The four legal values of the `status` column
(SQL CHECK constraint, and the `isIn` validator of PUT /:id and PATCH /:id/status). -/
def statusValues : List String := ["draft", "active", "sold", "archived"]

/-- The five legal values of the `condition` column. -/
def conditionValues : List String := ["new", "like_new", "good", "fair", "poor"]

/-- `.eq('id', id)` row lookup followed by `.maybeSingle()`. -/
def findProduct (db : List Product) (id : Nat) : Option Product :=
  db.find? (fun r => r.id == id)

/-- The read half of the view-count side effect: the GET /:id handler first
selects the product row, so `product.views` is a snapshot of the counter. -/
def readSnapshotViews (db : List Product) (id : Nat) : Option Nat :=
  (findProduct db id).map (fun p => p.views)

/-- The write half of the view-count side effect:
`.update({ views: v }).eq('id', id)` writes an absolute value computed by the
application, not a store-side delta. -/
def writeViews (db : List Product) (id : Nat) (v : Nat) : List Product :=
  db.map (fun r => if r.id == id then { r with views := v } else r)

/-- Outcome of GET /products/:id, as the handler reports it. -/
inductive ReadResult where
  | notFound
  | accessDenied
  | ok (p : Product)
deriving Repr, DecidableEq

/-- `!req.user || product.user_id !== req.user.id`: the caller is anonymous or
is not the product's owner. -/
def notOwner (caller : Option Nat) (p : Product) : Bool :=
  match caller with
  | none => true
  | some c => p.user_id != c

/-- GET /products/:id (optionalAuth): 404 when the id resolves to no row,
403 when `product.status !== 'active' && (!req.user || product.user_id !== req.user.id)`,
otherwise 200 with the product and a best-effort write-back of
`product.views + 1`. The handler does not inspect the result of the
increment update, so a failed increment (`incOk = false`) leaves the
store untouched but still answers 200 with `views + 1`. -/
def getProduct (caller : Option Nat) (id : Nat) (incOk : Bool) (db : List Product) :
    ReadResult × List Product :=
  match findProduct db id with
  | none => (.notFound, db)
  | some product =>
    if product.status != "active" && notOwner caller product then
      (.accessDenied, db)
    else
      let db' := if incOk then writeViews db id (product.views + 1) else db
      (.ok { product with views := product.views + 1 }, db')

/-- An interleaving of two concurrent executions of the GET /:id view-count
side effect in which both handlers read the snapshot before either
write-back lands (read₁, read₂, write₁, write₂). Each handler is the
read-then-write pair the route performs. -/
def twoConcurrentReads (db : List Product) (id : Nat) : List Product :=
  match readSnapshotViews db id, readSnapshotViews db id with
  | some v1, some v2 => writeViews (writeViews db id (v1 + 1)) id (v2 + 1)
  | _, _ => db

/-- `.trim()` followed by `.notEmpty()` of express-validator: the string has a
character left after stripping whitespace from both ends. -/
def trimmedNonempty (s : String) : Bool :=
  ((s.toList.dropWhile Char.isWhitespace).reverse.dropWhile Char.isWhitespace).reverse != []

/-- Body of PUT /products/:id. The handler forwards `req.body` to the store
unfiltered, so besides the validated fields the body may also carry
`sold_at` (including an explicit null, hence `Option (Option Nat)`) and
`user_id`. -/
structure UpdateFields where
  title : Option String := none
  description : Option String := none
  price : Option Int := none
  category_id : Option Nat := none
  condition : Option String := none
  location : Option String := none
  status : Option String := none
  sold_at : Option (Option Nat) := none
  user_id : Option Nat := none
deriving Repr, DecidableEq

/-- The express-validator chain of PUT /products/:id (all fields optional). -/
def validateUpdateBody (u : UpdateFields) : Bool :=
  (match u.title with | none => true | some t => trimmedNonempty t)
  && (match u.description with | none => true | some t => trimmedNonempty t)
  && (match u.price with | none => true | some v => decide (0 ≤ v))
  && (match u.condition with | none => true | some s => conditionValues.contains s)
  && (match u.location with | none => true | some t => trimmedNonempty t)
  && (match u.status with | none => true | some s => statusValues.contains s)

/-- JavaScript truthiness of `updates.sold_at`: the key is absent or null. -/
def soldAtFalsy : Option (Option Nat) → Bool
  | none => true
  | some none => true
  | some (some _) => false

/-- `if (updates.status === 'sold' && !updates.sold_at) updates.sold_at = now`
(PUT /products/:id, before the store call). -/
def stampSoldAt (u : UpdateFields) (now : Nat) : UpdateFields :=
  if u.status == some "sold" && soldAtFalsy u.sold_at then
    { u with sold_at := some (some now) }
  else u

/-- The new row an UPDATE produces from an existing row: supplied columns
replace the stored ones, absent columns keep their stored value. -/
def applyUpdates (u : UpdateFields) (p : Product) : Product :=
  { p with
    title := u.title.getD p.title
    description := u.description.getD p.description
    price := u.price.getD p.price
    category_id := u.category_id.getD p.category_id
    condition := u.condition.getD p.condition
    location := u.location.getD p.location
    status := u.status.getD p.status
    sold_at := u.sold_at.getD p.sold_at
    user_id := u.user_id.getD p.user_id }

/-- `.update(updates).eq('id', id).eq('user_id', caller).select().single()`:
rows are scoped by the two `.eq` filters (which coincide with the RLS
policy `Users can update own products` USING clause `auth.uid() = user_id`);
the policy's WITH CHECK clause `auth.uid() = user_id` rejects the whole
statement when an updated row would no longer belong to the caller;
`.single()` yields the row when exactly one was updated and an error
otherwise. -/
def storeUpdate (c id : Nat) (u : UpdateFields) (db : List Product) :
    Option Product × List Product :=
  let matched := db.filter (fun r => r.id == id && r.user_id == c)
  if matched.any (fun r => (applyUpdates u r).user_id != c) then
    (none, db)
  else
    let db' := db.map (fun r =>
      if r.id == id && r.user_id == c then applyUpdates u r else r)
    match matched with
    | [r] => (some (applyUpdates u r), db')
    | _ => (none, db')

/-- PUT /products/:id (authenticateUser): validate the body, stamp `sold_at`
when marking sold without an explicit `sold_at`, then run the
ownership-scoped store update. `none` covers both the 400 validation
response and the store/`.single()` error response. -/
def updateProduct (c id : Nat) (u : UpdateFields) (now : Nat) (db : List Product) :
    Option Product × List Product :=
  if validateUpdateBody u then storeUpdate c id (stampSoldAt u now) db
  else (none, db)

/-- The `updates` object PATCH /products/:id/status sends to the store:
`{ status }`, plus `sold_at = now` stamped unconditionally when the new
status is `'sold'`. -/
def setStatusUpdates (s : String) (now : Nat) : UpdateFields :=
  if s == "sold" then { status := some s, sold_at := some (some now) }
  else { status := some s }

/-- PATCH /products/:id/status (authenticateUser): the body's `status` must be
one of the four legal values, then the same ownership-scoped store update
as PUT runs with the narrow `updates` object. -/
def setStatusProduct (c id : Nat) (s : String) (now : Nat) (db : List Product) :
    Option Product × List Product :=
  if statusValues.contains s then storeUpdate c id (setStatusUpdates s now) db
  else (none, db)

/-- DELETE /products/:id (authenticateUser):
`.delete().eq('id', id).eq('user_id', caller)` removes exactly the rows
matching both filters; the handler answers success whether or not a row
matched. -/
def deleteProduct (c id : Nat) (db : List Product) : List Product :=
  db.filter (fun r => !(r.id == id && r.user_id == c))

/-- Body of POST /products. -/
structure CreateRequest where
  title : String
  description : String
  price : Int
  category_id : Nat
  condition : String
  location : String
  status : Option String := none
deriving Repr, DecidableEq

/-- The express-validator chain of POST /products: title/description/location
non-empty after trim, price ≥ 0, condition one of the five values, and the
optional status restricted to `'draft'` or `'active'`. -/
def validateCreate (r : CreateRequest) : Bool :=
  trimmedNonempty r.title
  && trimmedNonempty r.description
  && decide (0 ≤ r.price)
  && conditionValues.contains r.condition
  && trimmedNonempty r.location
  && (match r.status with | none => true | some s => ["draft", "active"].contains s)

/-- `status: status || 'draft'` of the insert payload: an absent (or falsy,
i.e. empty-string) status falls back to `'draft'`. -/
def requestedStatus : Option String → String
  | none => "draft"
  | some s => if s == "" then "draft" else s

/-- POST /products (authenticateUser): on valid input, insert a row with
`user_id = req.user.id` and `status = status || 'draft'`; the `views`,
`sold_at` and `created_at` columns take the table defaults
(`0`, null, `now()`). -/
def createProduct (c : Nat) (r : CreateRequest) (newId now : Nat) (db : List Product) :
    Option Product × List Product :=
  if validateCreate r then
    let p : Product := {
      id := newId
      user_id := c
      category_id := r.category_id
      title := r.title
      description := r.description
      price := r.price
      condition := r.condition
      location := r.location
      status := requestedStatus r.status
      views := 0
      sold_at := none
      created_at := now }
    (some p, db ++ [p])
  else (none, db)

/-- Query string of GET /products (all parameters optional). -/
structure ListQuery where
  category_id : Option Nat := none
  status : Option String := none
  min_price : Option Int := none
  max_price : Option Int := none
  condition : Option String := none
  search : Option String := none
  user_id : Option Nat := none
  limit : Option Int := none
  offset : Option Int := none
deriving Repr, DecidableEq

/-- The express-validator chain of GET /products: status/condition constrained
to their enumerations, prices ≥ 0, `limit` an integer in 1..100,
`offset` an integer ≥ 0. -/
def validateListQuery (q : ListQuery) : Bool :=
  (match q.status with | none => true | some s => statusValues.contains s)
  && (match q.min_price with | none => true | some v => decide (0 ≤ v))
  && (match q.max_price with | none => true | some v => decide (0 ≤ v))
  && (match q.condition with | none => true | some s => conditionValues.contains s)
  && (match q.limit with | none => true | some l => decide (1 ≤ l ∧ l ≤ 100))
  && (match q.offset with | none => true | some o => decide (0 ≤ o))

/-- `if (status) query = query.eq('status', status)`: the explicit status
filter, applied only in the own-listings branch. -/
def statusFilter (q : ListQuery) (p : Product) : Bool :=
  match q.status with
  | none => true
  | some s => p.status == s

/-- The access branch of GET /products:
`if (!req.user || !user_id || user_id !== req.user.id)` the query is forced to
`eq('status', 'active')`; otherwise (`user_id === req.user.id`) it is scoped to
`eq('user_id', user_id)` with the explicit status filter applied when given. -/
def listScope (caller : Option Nat) (q : ListQuery) (p : Product) : Bool :=
  match caller, q.user_id with
  | some c, some u =>
    if u == c then p.user_id == u && statusFilter q p
    else p.status == "active"
  | _, _ => p.status == "active"

/-- `ilike '%needle%'`: case-insensitive substring containment. -/
def ilikeContains (hay needle : String) : Bool :=
  (hay.toList.map Char.toLower).tails.any
    (fun t => (needle.toList.map Char.toLower).isPrefixOf t)

/-- `title.ilike.%search%,description.ilike.%search%` (the `.or` filter). -/
def searchMatch (s : String) (p : Product) : Bool :=
  ilikeContains p.title s || ilikeContains p.description s

/-- The conjunctive filters GET /products layers on top of the access branch:
category, price range, condition and free-text search. -/
def otherFilters (q : ListQuery) (p : Product) : Bool :=
  (match q.category_id with | none => true | some cid => p.category_id == cid)
  && (match q.min_price with | none => true | some v => decide (v ≤ p.price))
  && (match q.max_price with | none => true | some v => decide (p.price ≤ v))
  && (match q.condition with | none => true | some s => p.condition == s)
  && (match q.search with | none => true | some s => searchMatch s p)

/-- The rows the composed GET /products query matches (what
`count: 'exact'` counts, before ordering and the `.range` slice). -/
def matchedProducts (caller : Option Nat) (q : ListQuery) (db : List Product) :
    List Product :=
  db.filter (fun p => listScope caller q p && otherFilters q p)

/-- Successful response body of GET /products. -/
structure ListResponse where
  products : List Product
  total : Int
  limit : Int
  offset : Int
  hasMore : Bool
deriving Repr, DecidableEq

/-- GET /products (optionalAuth): validate, filter, order by `created_at`
descending, slice `range(offset, offset + limit - 1)`, and report
`{ total, limit, offset, hasMore: total > offset + limit }` with
`limit` defaulting to 20 and `offset` to 0. `none` is the 400 validation
response. -/
def listProducts (caller : Option Nat) (q : ListQuery) (db : List Product) :
    Option ListResponse :=
  if validateListQuery q then
    let matched := matchedProducts caller q db
    let sorted := matched.insertionSort (fun a b => b.created_at ≤ a.created_at)
    let lim := q.limit.getD 20
    let off := q.offset.getD 0
    some {
      products := (sorted.drop off.toNat).take lim.toNat
      total := (matched.length : Int)
      limit := lim
      offset := off
      hasMore := decide ((matched.length : Int) > off + lim) }
  else none

/-- A sample sold listing owned by user 7, with `sold_at` already stamped. -/
def sampleSold : Product := {
  id := 1
  user_id := 7
  category_id := 2
  title := "Chair"
  description := "wooden"
  price := 10
  condition := "good"
  location := "X"
  status := "sold"
  views := 0
  sold_at := some 100
  created_at := 50 }

/-- A sample active listing owned by user 7. -/
def sampleActive : Product := { sampleSold with status := "active", sold_at := none }

/-- A sample draft listing owned by user 7. -/
def sampleDraft : Product := { sampleActive with id := 3, status := "draft", created_at := 60 }

/-- A sample active listing owned by user 8. -/
def sampleOther : Product := { sampleActive with id := 4, user_id := 8, created_at := 70 }

/-- A sample valid creation request. -/
def sampleCreateReq : CreateRequest := {
  title := "Chair"
  description := "d"
  price := 10
  category_id := 2
  condition := "good"
  location := "X" }

/-! ## Helper lemmas -/

lemma owner_pred_false {c id : Nat} {a : Product} (h : a.id = id → a.user_id ≠ c) :
    (a.id == id && a.user_id == c) = false := by
  by_cases hid : a.id = id
  · simp [hid, h hid]
  · simp [hid]

lemma filter_owner_eq_nil {c id : Nat} {db : List Product}
    (h : ∀ r ∈ db, r.id = id → r.user_id ≠ c) :
    db.filter (fun r => r.id == id && r.user_id == c) = [] := by
  rw [List.filter_eq_nil_iff]
  intro a ha
  simp [owner_pred_false (h a ha)]

lemma map_update_eq_self {c id : Nat} {u : UpdateFields} {db : List Product}
    (h : ∀ r ∈ db, r.id = id → r.user_id ≠ c) :
    db.map (fun r => if r.id == id && r.user_id == c then applyUpdates u r else r) = db := by
  conv_rhs => rw [← List.map_id db]
  apply List.map_congr_left
  intro a ha
  rw [owner_pred_false (h a ha)]
  simp

lemma storeUpdate_nomatch {c id : Nat} {u : UpdateFields} {db : List Product}
    (h : ∀ r ∈ db, r.id = id → r.user_id ≠ c) :
    storeUpdate c id u db = (none, db) := by
  simp only [storeUpdate]
  rw [filter_owner_eq_nil h, map_update_eq_self h]
  simp

lemma read_guard_false {caller : Option Nat} {p : Product}
    (hcond : p.status = "active" ∨ caller = some p.user_id) :
    (p.status != "active" && notOwner caller p) = false := by
  rcases hcond with h1 | h1
  · simp [h1]
  · subst h1
    simp [notOwner]

lemma read_guard_true {caller : Option Nat} {p : Product}
    (h1 : p.status ≠ "active") (h2 : caller ≠ some p.user_id) :
    (p.status != "active" && notOwner caller p) = true := by
  cases caller with
  | none => simp [h1, notOwner]
  | some c =>
    have hne : p.user_id ≠ c := fun hh => h2 (by rw [hh])
    simp [h1, hne, notOwner]

/-! ## Claim theorems -/

/-- C3: for a GET /products/:id whose id resolves to a record, an active
listing is readable by any caller (anonymous included); a non-active listing
is readable exactly when the caller is its owner, and is otherwise answered
with the distinct 403 `accessDenied` outcome, while 404 `notFound` is
reserved for ids that resolve to no record. -/
theorem read_visibility (caller : Option Nat) (id : Nat) (incOk : Bool) (db : List Product) :
    match findProduct db id with
    | none => (getProduct caller id incOk db).1 = ReadResult.notFound
    | some p =>
      if p.status = "active" ∨ caller = some p.user_id then
        (getProduct caller id incOk db).1 = ReadResult.ok { p with views := p.views + 1 }
      else
        (getProduct caller id incOk db).1 = ReadResult.accessDenied := by
  split
  next h => simp [getProduct, h]
  next p h =>
    by_cases hcond : p.status = "active" ∨ caller = some p.user_id
    · rw [if_pos hcond]
      simp only [getProduct, h]
      rw [read_guard_false hcond]
      simp
    · rw [if_neg hcond]
      push_neg at hcond
      simp only [getProduct, h]
      rw [read_guard_true hcond.1 hcond.2]
      simp

/-- C4: an Update, SetStatus or Delete by an authenticated caller who does
not own the listing (no row of the store carries the target id together with
the caller's user id) leaves the store completely unchanged and surfaces as
an error/no-op response rather than a mutation. -/
theorem non_owner_mutations_are_noops (c id : Nat) (u : UpdateFields) (s : String)
    (now : Nat) (db : List Product)
    (h : ∀ r ∈ db, r.id = id → r.user_id ≠ c) :
    updateProduct c id u now db = (none, db)
    ∧ setStatusProduct c id s now db = (none, db)
    ∧ deleteProduct c id db = db := by
  refine ⟨?_, ?_, ?_⟩
  · unfold updateProduct
    split
    · exact storeUpdate_nomatch h
    · rfl
  · unfold setStatusProduct
    split
    · exact storeUpdate_nomatch h
    · rfl
  · unfold deleteProduct
    rw [List.filter_eq_self]
    intro a ha
    simp only [Bool.not_eq_eq_eq_not, Bool.not_true, Bool.and_eq_false_iff]
    by_cases hid : a.id = id
    · right
      simpa using h a ha hid
    · left
      simpa using hid

/-- Witness for C4 at a concrete non-owner caller (user 9 on user 7's listing). -/
theorem non_owner_mutations_are_noops_witness :
    updateProduct 9 1 { title := some "Hacked" } 300 [sampleSold] = (none, [sampleSold])
    ∧ setStatusProduct 9 1 "draft" 300 [sampleSold] = (none, [sampleSold])
    ∧ deleteProduct 9 1 [sampleSold] = [sampleSold] :=
  non_owner_mutations_are_noops 9 1 { title := some "Hacked" } "draft" 300 [sampleSold]
    (by decide)

/-- C5: a successful POST /products yields a row owned by the caller with
`views = 0`, `sold_at` null, and status equal to the requested status
(Draft when omitted); requesting status Sold or Archived is rejected by
validation. -/
theorem create_result_fields (c : Nat) (r : CreateRequest) (newId now : Nat)
    (db : List Product) :
    ((r.status = some "sold" ∨ r.status = some "archived") →
      createProduct c r newId now db = (none, db))
    ∧ (∀ p, (createProduct c r newId now db).1 = some p →
        p.user_id = c ∧ p.views = 0 ∧ p.sold_at = none
        ∧ (r.status = none → p.status = "draft")
        ∧ (∀ s, r.status = some s → p.status = s)) := by
  constructor
  · intro hstat
    have hv : validateCreate r = false := by
      rcases hstat with h1 | h1 <;> simp [validateCreate, h1]
    simp [createProduct, hv]
  · intro p hp
    by_cases hv : validateCreate r = true
    · rw [createProduct, if_pos hv] at hp
      simp only [Option.some.injEq] at hp
      subst hp
      refine ⟨rfl, rfl, rfl, ?_, ?_⟩
      · intro h0
        rw [h0]
        rfl
      · intro s hs
        have hone : (s == "") = false := by
          rw [validateCreate, hs] at hv
          have hmem : s = "draft" ∨ s = "active" := by
            have := (Bool.and_eq_true _ _).mp hv
            simpa using this.2
          rcases hmem with h | h <;> subst h <;> decide
        rw [hs]
        simp [requestedStatus, hone]
    · rw [createProduct, if_neg hv] at hp
      cases hp

/-- Witness for C5: user 7 creating the sample request with status `"sold"`
is rejected, leaving the store unchanged. -/
theorem create_result_fields_witness :
    createProduct 7 { sampleCreateReq with status := some "sold" } 5 40 [] = (none, []) :=
  (create_result_fields 7 { sampleCreateReq with status := some "sold" } 5 40 []).1
    (Or.inl rfl)

lemma storeUpdate_preserves_user_id (c id : Nat) (u : UpdateFields) (db : List Product) :
    (storeUpdate c id u db).2.map Product.user_id = db.map Product.user_id := by
  simp only [storeUpdate]
  by_cases hviol : ((db.filter (fun r => r.id == id && r.user_id == c)).any
      (fun r => (applyUpdates u r).user_id != c)) = true
  · rw [if_pos hviol]
  · rw [if_neg hviol]
    have hall : ∀ a ∈ db.filter (fun r => r.id == id && r.user_id == c),
        ((applyUpdates u a).user_id != c) = false := by
      intro a ha
      by_contra hne
      exact hviol (List.any_eq_true.mpr ⟨a, ha, by simpa using hne⟩)
    have hmap : (db.map (fun r =>
        if r.id == id && r.user_id == c then applyUpdates u r else r)).map Product.user_id
        = db.map Product.user_id := by
      rw [List.map_map]
      apply List.map_congr_left
      intro a ha
      by_cases hpred : (a.id == id && a.user_id == c) = true
      · have hmem : a ∈ db.filter (fun r => r.id == id && r.user_id == c) :=
          List.mem_filter.mpr ⟨ha, hpred⟩
        have h2 : (applyUpdates u a).user_id = c := by simpa using hall a hmem
        have h3 : a.user_id = c := by
          have := (Bool.and_eq_true _ _).mp hpred
          simpa using this.2
        have hsel : (if a.id == id && a.user_id == c then applyUpdates u a else a)
            = applyUpdates u a := if_pos hpred
        show (if a.id == id && a.user_id == c then applyUpdates u a else a).user_id = a.user_id
        rw [hsel, h2, h3]
      · simp [Function.comp, hpred]
    split <;> simpa using hmap

/-- C8: `ownerId` (the `user_id` column) is never changed by a PUT update —
even one whose body carries a `user_id` field, which the handler forwards to
the store unfiltered but which the RLS WITH CHECK clause rejects — nor by a
PATCH status update or by the view-count write-back. -/
theorem owner_id_immutable (c id v : Nat) (u : UpdateFields) (s : String) (now : Nat)
    (db : List Product) :
    (updateProduct c id u now db).2.map Product.user_id = db.map Product.user_id
    ∧ (setStatusProduct c id s now db).2.map Product.user_id = db.map Product.user_id
    ∧ (writeViews db id v).map Product.user_id = db.map Product.user_id := by
  refine ⟨?_, ?_, ?_⟩
  · rw [updateProduct]
    split
    · exact storeUpdate_preserves_user_id c id (stampSoldAt u now) db
    · rfl
  · rw [setStatusProduct]
    split
    · exact storeUpdate_preserves_user_id c id (setStatusUpdates s now) db
    · rfl
  · rw [writeViews, List.map_map]
    apply List.map_congr_left
    intro a ha
    by_cases hid : (a.id == id) = true <;> simp [Function.comp, hid]

lemma storeUpdate_preserves_sold_at {u : UpdateFields} (hsa : u.sold_at = none)
    (c id : Nat) (db : List Product) :
    (storeUpdate c id u db).2.map Product.sold_at = db.map Product.sold_at := by
  simp only [storeUpdate]
  have hmap : (db.map (fun r =>
      if r.id == id && r.user_id == c then applyUpdates u r else r)).map Product.sold_at
      = db.map Product.sold_at := by
    rw [List.map_map]
    apply List.map_congr_left
    intro a ha
    show (if a.id == id && a.user_id == c then applyUpdates u a else a).sold_at = a.sold_at
    by_cases hpred : (a.id == id && a.user_id == c) = true
    · rw [if_pos hpred]
      simp [applyUpdates, hsa]
    · rw [if_neg hpred]
  split
  · rfl
  · split <;> simpa using hmap

/-- Counterexample for C1: PATCH /:id/status with `"sold"` on a listing whose
`sold_at` is already `100` re-stamps `sold_at` with the current time `200`,
so a later transition to Sold does not leave the original `soldAt` intact. -/
theorem sold_at_restamped_counterexample :
    sampleSold.sold_at = some 100
    ∧ (setStatusProduct 7 1 "sold" 200 [sampleSold]).2.map Product.sold_at = [some 200]
    ∧ (some 200 : Option Nat) ≠ some 100 := by decide

/-- C1 (amended): once set, `sold_at` is preserved by any PUT update whose
body neither sets status to `"sold"` nor supplies a `sold_at` field, and by
any PATCH status update whose new status is not `"sold"` (in particular
Sold → Archived keeps the original `sold_at`); however a later Update or
SetStatus that sets status to `"sold"` again re-stamps `sold_at` with the
current time, and a PUT body supplying `sold_at` (forwarded to the store
unfiltered) overwrites or clears it. -/
theorem sold_at_preserved_unless_resold_or_supplied (c id : Nat) (u : UpdateFields)
    (s : String) (now : Nat) (db : List Product) :
    (u.status ≠ some "sold" → u.sold_at = none →
      (updateProduct c id u now db).2.map Product.sold_at = db.map Product.sold_at)
    ∧ (s ≠ "sold" →
      (setStatusProduct c id s now db).2.map Product.sold_at = db.map Product.sold_at) := by
  constructor
  · intro hst hsa
    have hstamp : stampSoldAt u now = u := by
      rw [stampSoldAt]
      have hb : (u.status == some "sold") = false := by simpa using hst
      simp [hb]
    rw [updateProduct, hstamp]
    split
    · exact storeUpdate_preserves_sold_at hsa c id db
    · rfl
  · intro hs
    have hupd : setStatusUpdates s now = { status := some s } := by
      rw [setStatusUpdates]
      have hb : (s == "sold") = false := by simpa using hs
      simp [hb]
    rw [setStatusProduct, hupd]
    split
    · exact storeUpdate_preserves_sold_at rfl c id db
    · rfl

lemma findProduct_writeViews (db : List Product) (id v : Nat) :
    findProduct (writeViews db id v) id
      = (findProduct db id).map (fun p => { p with views := v }) := by
  induction db with
  | nil => rfl
  | cons a tl ih =>
    simp only [findProduct, writeViews, List.map_cons, List.find?_cons] at *
    by_cases hid : (a.id == id) = true
    · rw [if_pos hid]
      have hid2 : (({ a with views := v } : Product).id == id) = true := hid
      rw [hid2]
      rfl
    · have hf : (a.id == id) = false := by simpa using hid
      rw [if_neg hid, hf]
      exact ih

/-- Counterexample for C2: the view-count side effect is not an atomic
store-side increment; under the read-read-write-write interleaving of two
concurrent GET /:id requests, a listing with 0 views ends at 1 view, not
0 + 2 — a lost update. -/
theorem lost_update_counterexample :
    readSnapshotViews [sampleActive] 1 = some 0
    ∧ readSnapshotViews (twoConcurrentReads [sampleActive] 1) 1 = some 1
    ∧ (1 : Nat) ≠ 0 + 2 := by decide

/-- C2 (amended): the handler implements the view-count side effect as a
read-snapshot-then-write-back performed in application code
(`update({ views: product.views + 1 })`): a single successful read writes
exactly snapshot + 1, and the read-read-write-write interleaving of two
concurrent reads leaves the counter at snapshot + 1 rather than
snapshot + 2. -/
theorem view_increment_is_read_then_write (id : Nat) (db : List Product) (p : Product)
    (h : findProduct db id = some p) :
    (getProduct (some p.user_id) id true db).2 = writeViews db id (p.views + 1)
    ∧ readSnapshotViews (twoConcurrentReads db id) id = some (p.views + 1) := by
  constructor
  · simp only [getProduct, h]
    rw [read_guard_false (Or.inr rfl)]
    simp
  · have hsnap : readSnapshotViews db id = some p.views := by
      simp [readSnapshotViews, h]
    simp only [twoConcurrentReads, hsnap]
    simp [readSnapshotViews, findProduct_writeViews, h]

/-- Witness for C2's amended theorem at the sample active listing. -/
theorem view_increment_is_read_then_write_witness :
    (getProduct (some sampleActive.user_id) 1 true [sampleActive]).2
        = writeViews [sampleActive] 1 (sampleActive.views + 1)
    ∧ readSnapshotViews (twoConcurrentReads [sampleActive] 1) 1
        = some (sampleActive.views + 1) :=
  view_increment_is_read_then_write 1 [sampleActive] sampleActive rfl

/-- C7: a permitted GET /products/:id (owner included) answers 200 with the
snapshot's `views + 1`; the increment write-back touches the store only when
it succeeds, and its failure does not fail the read, which still reports
`views + 1`. -/
theorem read_increments_views_best_effort (caller : Option Nat) (id : Nat)
    (db : List Product) (p : Product) (h : findProduct db id = some p)
    (hperm : p.status = "active" ∨ caller = some p.user_id) :
    (∀ incOk, (getProduct caller id incOk db).1
        = ReadResult.ok { p with views := p.views + 1 })
    ∧ (getProduct caller id true db).2 = writeViews db id (p.views + 1)
    ∧ (getProduct caller id false db).2 = db := by
  refine ⟨?_, ?_, ?_⟩
  · intro incOk
    simp only [getProduct, h]
    rw [read_guard_false hperm]
    simp
  · simp only [getProduct, h]
    rw [read_guard_false hperm]
    simp
  · simp only [getProduct, h]
    rw [read_guard_false hperm]
    simp

/-- Witness for C7: the owner reading the sample active listing. -/
theorem read_increments_views_best_effort_witness :
    ((∀ incOk, (getProduct (some 7) 1 incOk [sampleActive]).1
        = ReadResult.ok { sampleActive with views := sampleActive.views + 1 })
    ∧ (getProduct (some 7) 1 true [sampleActive]).2
        = writeViews [sampleActive] 1 (sampleActive.views + 1)
    ∧ (getProduct (some 7) 1 false [sampleActive]).2 = [sampleActive]) :=
  read_increments_views_best_effort (some 7) 1 [sampleActive] sampleActive rfl
    (Or.inl rfl)

lemma mem_matched_of_mem_products {caller : Option Nat} {q : ListQuery} {db : List Product}
    {resp : ListResponse} (h : listProducts caller q db = some resp) :
    ∀ p ∈ resp.products, p ∈ matchedProducts caller q db := by
  rw [listProducts] at h
  by_cases hv : validateListQuery q = true
  · rw [if_pos hv] at h
    simp only [Option.some.injEq] at h
    subst h
    intro p hp
    simp only at hp
    have h1 := List.mem_of_mem_take hp
    have h2 := List.mem_of_mem_drop h1
    exact (List.mem_insertionSort _).mp h2
  · rw [if_neg hv] at h
    cases h

lemma listScope_branch1 {caller : Option Nat} {q : ListQuery} (p : Product)
    (hb : caller = none ∨ ∃ c u, caller = some c ∧ q.user_id = some u ∧ u ≠ c) :
    listScope caller q p = (p.status == "active") := by
  rcases hb with h1 | ⟨c, u, hc, hu, hne⟩
  · subst h1
    cases hqu : q.user_id with
    | none => simp [listScope, hqu]
    | some u => simp [listScope, hqu]
  · subst hc
    simp [listScope, hu, hne]

/-- C6: an anonymous GET /products query, or one whose `user_id` filter names
a different user than the caller, returns only `"active"` listings; a query
by an authenticated caller whose id equals the `user_id` filter matches
exactly that caller's listings in every status, narrowed only by an explicit
status filter and the other conjunctive filters. -/
theorem list_visibility_scope (caller : Option Nat) (q : ListQuery) (db : List Product) :
    ((caller = none ∨ ∃ c u, caller = some c ∧ q.user_id = some u ∧ u ≠ c) →
      ∀ resp, listProducts caller q db = some resp →
        ∀ p ∈ resp.products, p.status = "active")
    ∧ (∀ c, caller = some c → q.user_id = some c →
        ∀ p, p ∈ matchedProducts caller q db ↔
          (p ∈ db ∧ p.user_id = c
            ∧ (∀ s, q.status = some s → p.status = s)
            ∧ otherFilters q p = true)) := by
  constructor
  · intro hb resp hresp p hp
    have hmem := mem_matched_of_mem_products hresp p hp
    obtain ⟨hdb, hpred⟩ := List.mem_filter.mp hmem
    obtain ⟨hsc, hof⟩ := (Bool.and_eq_true _ _).mp hpred
    rw [listScope_branch1 p hb] at hsc
    simpa using hsc
  · intro c hc hu p
    subst hc
    constructor
    · intro hp
      obtain ⟨hdb, hpred⟩ := List.mem_filter.mp hp
      obtain ⟨hsc, hof⟩ := (Bool.and_eq_true _ _).mp hpred
      simp only [listScope, hu] at hsc
      rw [if_pos (by simp)] at hsc
      obtain ⟨hown, hstat⟩ := (Bool.and_eq_true _ _).mp hsc
      refine ⟨hdb, by simpa using hown, ?_, hof⟩
      intro s hs
      rw [statusFilter, hs] at hstat
      simpa using hstat
    · rintro ⟨hdb, hown, hstat, hof⟩
      apply List.mem_filter.mpr
      refine ⟨hdb, ?_⟩
      apply (Bool.and_eq_true _ _).mpr
      refine ⟨?_, hof⟩
      simp only [listScope, hu]
      rw [if_pos (by simp)]
      apply (Bool.and_eq_true _ _).mpr
      constructor
      · simpa using hown
      · rw [statusFilter]
        cases hqs : q.status with
        | none => rfl
        | some s => simpa using hstat s hqs

/-- C9: GET /products rejects a `limit` outside 1..100 or a negative `offset`
as a validation error; a successful response carries `limit` (default 20),
`offset` (default 0), the exact total of matching rows, and
`hasMore = (total > offset + limit)`. -/
theorem list_pagination_contract (caller : Option Nat) (q : ListQuery) (db : List Product) :
    (∀ l, q.limit = some l → ¬(1 ≤ l ∧ l ≤ 100) → listProducts caller q db = none)
    ∧ (∀ o, q.offset = some o → o < 0 → listProducts caller q db = none)
    ∧ (∀ resp, listProducts caller q db = some resp →
        resp.limit = q.limit.getD 20 ∧ resp.offset = q.offset.getD 0
        ∧ resp.total = ((matchedProducts caller q db).length : Int)
        ∧ resp.hasMore = decide (resp.total > resp.offset + resp.limit)) := by
  refine ⟨?_, ?_, ?_⟩
  · intro l hl hrange
    have hdec : decide (1 ≤ l ∧ l ≤ 100) = false := by simpa using hrange
    have hv : validateListQuery q = false := by
      simp [validateListQuery, hl, hdec]
    simp [listProducts, hv]
  · intro o ho hneg
    have hno : ¬(0 ≤ o) := by omega
    have hdec : decide ((0 : Int) ≤ o) = false := by simpa using hno
    have hv : validateListQuery q = false := by
      simp [validateListQuery, ho, hdec]
    simp [listProducts, hv]
  · intro resp h
    rw [listProducts] at h
    by_cases hv : validateListQuery q = true
    · rw [if_pos hv] at h
      simp only [Option.some.injEq] at h
      subst h
      exact ⟨rfl, rfl, rfl, rfl⟩
    · rw [if_neg hv] at h
      cases h

/-- C10: when the caller is anonymous or the `user_id` filter names someone
other than the caller, the `user_id` filter and any explicit status filter
are not applied at all: the query matches exactly the `"active"` listings of
all owners that pass the remaining filters. -/
theorem list_branch1_ignores_user_and_status_filters (caller : Option Nat) (q : ListQuery)
    (db : List Product)
    (hb : caller = none ∨ ∃ c u, caller = some c ∧ q.user_id = some u ∧ u ≠ c) :
    ∀ p, p ∈ matchedProducts caller q db
      ↔ (p ∈ db ∧ p.status = "active" ∧ otherFilters q p = true) := by
  intro p
  rw [matchedProducts]
  rw [List.mem_filter]
  rw [listScope_branch1 p hb]
  simp [Bool.and_eq_true]

/-- Witness for C10: an anonymous query matches the sample draft listing iff
it is active (it is not), and does match the sample active listing. -/
theorem list_branch1_ignores_filters_witness :
    (sampleDraft ∈ matchedProducts none { user_id := some 7 } [sampleActive, sampleDraft]
      ↔ (sampleDraft ∈ [sampleActive, sampleDraft] ∧ sampleDraft.status = "active"
          ∧ otherFilters { user_id := some 7 } sampleDraft = true)) :=
  list_branch1_ignores_user_and_status_filters none { user_id := some 7 }
    [sampleActive, sampleDraft] (Or.inl rfl) sampleDraft

end Olx
